import Mathlib

/-!
Verification of the task-list state manager of the single-page todo
application (`src/unnamed/part_000`, the `App` component).

The component state is a pair of an ordered task collection and the draft
input string.  The operations are shallow embeddings of the source:

* `addTask now`       — lines 12-22 (`Date.now()` is passed in as `now`);
* `deleteTask id`     — lines 24-26;
* `setDraft text`     — line 42 (the `onChange` handler);
* `handleKeyPress`    — lines 28-32;
* `renderTasks`       — lines 51-67 (the ternary choosing between the
  empty-state message and the row list).

Reachable states are described by the `Reachable` relation, which threads
the wall clock through the steps: `Date.now()` is non-decreasing but may
return the same value on successive calls.
-/

namespace TodoApp

/-- A stored task: `{ id: ..., text: ... }` (source lines 15-18). -/
structure Task where
  id : Nat
  text : String
deriving DecidableEq, Repr

/-- The component state: the `tasks` list and the `inputValue` draft string
(source lines 5-10). -/
structure AppState where
  tasks : List Task
  inputValue : String
deriving DecidableEq, Repr

/-- The ECMAScript WhiteSpace / LineTerminator characters removed by
`String.prototype.trim` (space, tab, line feed, vertical tab, form feed,
carriage return, NBSP, BOM, the Unicode space separators and the line and
paragraph separators). -/
def jsWhitespace (c : Char) : Bool :=
  c.toNat ∈ [0x20, 0x09, 0x0A, 0x0B, 0x0C, 0x0D, 0xA0, 0xFEFF,
             0x1680, 0x2000, 0x2001, 0x2002, 0x2003, 0x2004, 0x2005, 0x2006,
             0x2007, 0x2008, 0x2009, 0x200A, 0x2028, 0x2029, 0x202F, 0x205F,
             0x3000]

/-- JavaScript `s.trim()`: drop leading and trailing whitespace. -/
def jsTrim (s : String) : String :=
  ⟨((s.data.dropWhile jsWhitespace).reverse.dropWhile jsWhitespace).reverse⟩

/-- The initial seeded state (source lines 5-10). -/
def initialState : AppState :=
  { tasks := [⟨1, "Learn React"⟩, ⟨2, "Build a todo app"⟩, ⟨3, "Master JavaScript"⟩],
    inputValue := "" }

/-- `addTask` (source lines 12-22): if the trimmed draft is empty, return
unchanged; otherwise append a task with id `Date.now()` (the `now`
argument) and the untrimmed draft text, and clear the draft. -/
def addTask (now : Nat) (s : AppState) : AppState :=
  if jsTrim s.inputValue = "" then s
  else
    { tasks := s.tasks ++ [{ id := now, text := s.inputValue }],
      inputValue := "" }

/-- `deleteTask` (source lines 24-26): keep the tasks whose id differs
from the argument (`tasks.filter(task => task.id !== id)`). -/
def deleteTask (id : Nat) (s : AppState) : AppState :=
  { s with tasks := s.tasks.filter (fun t => t.id != id) }

/-- The `onChange` handler of the draft input (source line 42): store the
typed value verbatim. -/
def setDraft (text : String) (s : AppState) : AppState :=
  { s with inputValue := text }

/-- `handleKeyPress` (source lines 28-32): run `addTask` when the key is
`"Enter"`, otherwise do nothing. -/
def handleKeyPress (key : String) (now : Nat) (s : AppState) : AppState :=
  if key = "Enter" then addTask now s else s

/-- The tasks section of the rendered tree (source lines 51-67): either the
empty-state paragraph or the list of rows. -/
inductive TasksSection where
  | emptyMessage (text : String)
  | rowList (rows : List Task)
deriving DecidableEq, Repr

/-- The render branch (source lines 51-67): the empty-state message when
`tasks.length === 0`, the row list otherwise. -/
def renderTasks (tasks : List Task) : TasksSection :=
  if tasks.length = 0 then
    .emptyMessage "No tasks yet. Add one to get started!"
  else
    .rowList tasks

/-- The count readout (source line 71): `tasks.length`. -/
def count (tasks : List Task) : Nat := tasks.length

/-- The derived empty flag, the condition of the render branch
(source line 51): `tasks.length === 0`. -/
def isEmpty (tasks : List Task) : Bool := tasks.length == 0

/-- Whether a rendered tasks section is the empty-state message. -/
def showsEmptyMessage : TasksSection → Bool
  | .emptyMessage _ => true
  | .rowList _ => false

/-- Whether a rendered tasks section is the row list. -/
def showsRowList : TasksSection → Bool
  | .emptyMessage _ => false
  | .rowList _ => true

/-- States reachable from the seeded initial state.  The `Nat` index is the
current value of the wall clock (`Date.now()`), which never decreases but
may repeat across successive operations. -/
inductive Reachable : Nat → AppState → Prop where
  | init (t : Nat) : Reachable t initialState
  | add {t s} (t' : Nat) : Reachable t s → t ≤ t' → Reachable t' (addTask t' s)
  | del {t s} (t' id : Nat) : Reachable t s → t ≤ t' → Reachable t' (deleteTask id s)
  | draft {t s} (t' : Nat) (text : String) :
      Reachable t s → t ≤ t' → Reachable t' (setDraft text s)

/-! ## Helper lemmas -/

theorem filter_ne_of_not_mem (l : List Task) (id : Nat)
    (h : id ∉ l.map Task.id) : l.filter (fun t => t.id != id) = l := by
  apply List.filter_eq_self.mpr
  intro a ha
  simp only [bne_iff_ne, ne_eq]
  intro heq
  exact h (heq ▸ List.mem_map_of_mem Task.id ha)

theorem filter_ne_decomp (l : List Task) (id : Nat)
    (hnd : (l.map Task.id).Nodup) (hmem : id ∈ l.map Task.id) :
    ∃ l1 t l2, l = l1 ++ t :: l2 ∧ t.id = id ∧
      l.filter (fun t => t.id != id) = l1 ++ l2 := by
  induction l with
  | nil => simp at hmem
  | cons a l ih =>
    rw [List.map_cons, List.nodup_cons] at hnd
    by_cases ha : a.id = id
    · refine ⟨[], a, l, rfl, ha, ?_⟩
      have hfalse : (a.id != id) = false := by simp [ha]
      rw [List.filter_cons, hfalse]
      simpa using filter_ne_of_not_mem l id (ha ▸ hnd.1)
    · have hmem' : id ∈ l.map Task.id := by
        rw [List.map_cons, List.mem_cons] at hmem
        rcases hmem with h | h
        · exact absurd h.symm ha
        · exact h
      obtain ⟨l1, t, l2, heq, hid, hfil⟩ := ih hnd.2 hmem'
      refine ⟨a :: l1, t, l2, by rw [heq, List.cons_append], hid, ?_⟩
      have htrue : (a.id != id) = true := by simpa using ha
      rw [List.filter_cons, htrue, hfil]
      simp

/-! ## Claims -/

/-- Claim C1: for every state whose draft trims to a non-empty string,
`addTask` appends exactly one task carrying the untrimmed draft text to the
end of the collection, leaves the existing tasks and their order unchanged,
grows the collection by exactly one, and clears the draft. -/
theorem addTask_appends (now : Nat) (s : AppState)
    (h : jsTrim s.inputValue ≠ "") :
    (addTask now s).tasks = s.tasks ++ [{ id := now, text := s.inputValue }] ∧
    (addTask now s).tasks.length = s.tasks.length + 1 ∧
    (addTask now s).inputValue = "" := by
  simp [addTask, h]

theorem addTask_appends_witness :
    (addTask 100 (setDraft "Test task" initialState)).tasks
      = (setDraft "Test task" initialState).tasks
          ++ [{ id := 100, text := (setDraft "Test task" initialState).inputValue }] ∧
    (addTask 100 (setDraft "Test task" initialState)).tasks.length
      = (setDraft "Test task" initialState).tasks.length + 1 ∧
    (addTask 100 (setDraft "Test task" initialState)).inputValue = "" :=
  addTask_appends 100 (setDraft "Test task" initialState) (by decide)

/-- Claim C2: in a state whose identifiers are pairwise distinct, deleting an
identifier that is present removes exactly that one task: the collection
splits as `l1 ++ t :: l2` with `t.id = id`, the result is `l1 ++ l2` (so the
relative order of the remaining tasks is preserved), and the size drops by
exactly one. -/
theorem deleteTask_removes_exactly_one (id : Nat) (s : AppState)
    (hnd : (s.tasks.map Task.id).Nodup) (hmem : id ∈ s.tasks.map Task.id) :
    ∃ l1 t l2, s.tasks = l1 ++ t :: l2 ∧ t.id = id ∧
      (deleteTask id s).tasks = l1 ++ l2 ∧
      (deleteTask id s).tasks.length + 1 = s.tasks.length := by
  obtain ⟨l1, t, l2, heq, hid, hfil⟩ := filter_ne_decomp s.tasks id hnd hmem
  have htasks : (deleteTask id s).tasks = l1 ++ l2 := by
    simpa [deleteTask] using hfil
  refine ⟨l1, t, l2, heq, hid, htasks, ?_⟩
  rw [htasks, heq]
  simp only [List.length_append, List.length_cons]
  omega

theorem deleteTask_removes_exactly_one_witness :
    ∃ l1 t l2, initialState.tasks = l1 ++ t :: l2 ∧ t.id = 2 ∧
      (deleteTask 2 initialState).tasks = l1 ++ l2 ∧
      (deleteTask 2 initialState).tasks.length + 1 = initialState.tasks.length :=
  deleteTask_removes_exactly_one 2 initialState (by decide) (by decide)

/-- Claim C3: when the draft trims to the empty string, `addTask` returns
the state unchanged: no task is appended, the draft stays as it was, and no
error is raised (the function is total and silently returns). -/
theorem addTask_whitespace_noop (now : Nat) (s : AppState)
    (h : jsTrim s.inputValue = "") : addTask now s = s := by
  simp [addTask, h]

theorem addTask_whitespace_noop_witness :
    addTask 5 (setDraft "   " initialState) = setDraft "   " initialState :=
  addTask_whitespace_noop 5 (setDraft "   " initialState) (by decide)

/-- Claim C4 (refuted, the code is at fault): two successful `addTask`
calls in the same millisecond both receive `Date.now()`'s value as their
identifier, so a reachable state holds two tasks with the same identifier,
violating the pairwise-distinctness invariant the claim states. -/
theorem taskIds_collide_on_equal_timestamps :
    Reachable 1000
      (addTask 1000 (setDraft "b" (addTask 1000 (setDraft "a" initialState)))) ∧
    ¬ (((addTask 1000 (setDraft "b" (addTask 1000 (setDraft "a" initialState)))).tasks.map
          Task.id).Nodup) := by
  refine ⟨?_, by decide⟩
  exact .add 1000
    (.draft 1000 "b" (.add 1000 (.draft 1000 "a" (.init 1000) le_rfl) le_rfl) le_rfl)
    le_rfl

/-- Claim C5: the rendered tasks section shows the empty-state message
exactly when the count is zero, shows the row list exactly when the count is
positive, the two modes are mutually exclusive and exhaustive, and `isEmpty`
holds iff the count is zero. -/
theorem render_modes (tasks : List Task) :
    (showsEmptyMessage (renderTasks tasks) = true ↔ count tasks = 0) ∧
    (showsRowList (renderTasks tasks) = true ↔ 0 < count tasks) ∧
    showsRowList (renderTasks tasks) = !showsEmptyMessage (renderTasks tasks) ∧
    (isEmpty tasks = true ↔ count tasks = 0) := by
  unfold renderTasks count isEmpty
  by_cases h : tasks.length = 0
  · simp [h, showsEmptyMessage, showsRowList]
  · simp [h, showsEmptyMessage, showsRowList, Nat.pos_of_ne_zero h]

/-- Claim C6: deleting an identifier that is absent from the collection
leaves the state unchanged, and `deleteTask` is idempotent: deleting the
same identifier twice equals deleting it once. -/
theorem deleteTask_noop_and_idempotent (id : Nat) (s : AppState) :
    (id ∉ s.tasks.map Task.id → deleteTask id s = s) ∧
    deleteTask id (deleteTask id s) = deleteTask id s := by
  constructor
  · intro h
    simp [deleteTask, filter_ne_of_not_mem s.tasks id h]
  · simp only [deleteTask]
    congr 1
    apply List.filter_eq_self.mpr
    intro a ha
    exact (List.mem_filter.mp ha).2

theorem deleteTask_noop_and_idempotent_witness :
    deleteTask 99 initialState = initialState ∧
    deleteTask 99 (deleteTask 99 initialState) = deleteTask 99 initialState :=
  ⟨(deleteTask_noop_and_idempotent 99 initialState).1 (by decide),
   (deleteTask_noop_and_idempotent 99 initialState).2⟩

/-- Claim C7: `setDraft` stores the typed text verbatim (no trimming, no
validation) and leaves the task collection untouched. -/
theorem setDraft_verbatim (text : String) (s : AppState) :
    (setDraft text s).inputValue = text ∧ (setDraft text s).tasks = s.tasks :=
  ⟨rfl, rfl⟩

/-- Claim C8: the keypress handler runs `addTask` exactly when the key is
`"Enter"`; any other key leaves the state (collection and draft)
unchanged. -/
theorem handleKeyPress_enter_only (key : String) (now : Nat) (s : AppState) :
    (key = "Enter" → handleKeyPress key now s = addTask now s) ∧
    (key ≠ "Enter" → handleKeyPress key now s = s) := by
  constructor <;> intro h <;> simp [handleKeyPress, h]

theorem handleKeyPress_enter_only_witness :
    handleKeyPress "Enter" 7 (setDraft "hi" initialState)
      = addTask 7 (setDraft "hi" initialState) ∧
    handleKeyPress "a" 7 initialState = initialState :=
  ⟨(handleKeyPress_enter_only "Enter" 7 (setDraft "hi" initialState)).1 rfl,
   (handleKeyPress_enter_only "a" 7 initialState).2 (by decide)⟩

/-- Claim C9: from the seeded initial state, deleting the first task
(identifier 1) leaves 2 tasks whose texts, in order, are
"Build a todo app" and "Master JavaScript". -/
theorem delete_first_seeded_task :
    (deleteTask 1 initialState).tasks.length = 2 ∧
    (deleteTask 1 initialState).tasks.map Task.text
      = ["Build a todo app", "Master JavaScript"] := by
  decide

/-- Claim C10: after `deleteTask id` no task with identifier `id` remains
(the filter removes every match, not just the first, so this holds even if
the state held duplicate identifiers), and the draft is unchanged. -/
theorem deleteTask_removes_all_matching (id : Nat) (s : AppState) :
    id ∉ ((deleteTask id s).tasks.map Task.id) ∧
    (deleteTask id s).inputValue = s.inputValue := by
  refine ⟨?_, rfl⟩
  simp only [deleteTask, List.mem_map]
  rintro ⟨t, ht, rfl⟩
  have hpred := (List.mem_filter.mp ht).2
  simp at hpred

theorem deleteTask_removes_all_matching_witness :
    2 ∉ ((deleteTask 2 initialState).tasks.map Task.id) ∧
    (deleteTask 2 initialState).inputValue = initialState.inputValue :=
  deleteTask_removes_all_matching 2 initialState

end TodoApp
